import Mathlib

/-!
Verification of the logic/gateway layer of the MX Local DNS manager
(`src/logic.py`) and the relational-lookup and success-test helpers of its
presentation layer (`src/web.py`), as a shallow embedding in Lean 4.

Modelling conventions:
* A Python/JSON value is a `PyVal` (None, string, dict, list).  API result
  objects are dicts with string keys.
* The remote SDK surface is passed to each gateway function as an explicit
  `remote` argument: either the outcome of the SDK call for the given
  arguments (`Except String PyVal`, where `Except.error msg` is a raised
  `meraki.APIError` whose `str` is `msg`), or — for the operations that
  construct a request payload — a function from the payload to the outcome.
* A gateway function that catches `meraki.APIError` is a total function
  into `PyVal`: no exception can escape it.  `get_organizations` and
  `get_networks` have no try/except in the source, so their bodies keep
  the `Except` in their result type: `Except.error` is the exception
  propagating to the caller.
-/

/-- A Python value as it appears in the API results handled by the code:
`None`, a string, a dict with string keys, or a list. -/
inductive PyVal : Type where
  | none : PyVal
  | str : String → PyVal
  | dict : List (String × PyVal) → PyVal
  | list : List PyVal → PyVal

/-- Dictionary field lookup (Python `d[k]` / membership test helper). -/
def pyLookup : List (String × PyVal) → String → Option PyVal
  | [], _ => Option.none
  | (k, v) :: rest, key => if k = key then some v else pyLookup rest key

/-- Python `d.get(key, default)` on a dict's field list. -/
def pyGetD (fields : List (String × PyVal)) (key : String) (default : PyVal) : PyVal :=
  (pyLookup fields key).getD default

/-- Python `key in res` for a dict result (False on non-dict results). -/
def hasKey (v : PyVal) (key : String) : Bool :=
  match v with
  | PyVal.dict fs => (pyLookup fs key).isSome
  | _ => false

/-- Python truthiness of a result value. -/
def pyTruthy : PyVal → Bool
  | PyVal.none => false
  | PyVal.str s => !(s = "")
  | PyVal.dict fs => !fs.isEmpty
  | PyVal.list xs => !xs.isEmpty

/-- Python `len` of a list value (0 on non-lists; only used on lists). -/
def pyLen (v : PyVal) : Nat :=
  match v with
  | PyVal.list xs => xs.length
  | PyVal.dict fs => fs.length
  | PyVal.str s => s.length
  | PyVal.none => 0

/-! ## Remote Resource Gateway (`src/logic.py`, class ProjectLogic)

Each definition embeds one method.  The `remote` argument stands for the
Meraki SDK call the method performs. -/

/-- `ProjectLogic.list_profiles` (logic.py:43-51): unwraps the
`{items: [...]}` envelope with `response.get("items", [])`; a raised
`meraki.APIError` is caught and degrades to `[]`. -/
def list_profiles (remote : Except String (List (String × PyVal))) : PyVal :=
  match remote with
  | Except.ok response => pyGetD response "items" (PyVal.list [])
  | Except.error _ => PyVal.list []

/-- `ProjectLogic.list_dns_records` (logic.py:62-70): same envelope
unwrapping and APIError-to-`[]` degradation as `list_profiles`. -/
def list_dns_records (remote : Except String (List (String × PyVal))) : PyVal :=
  match remote with
  | Except.ok response => pyGetD response "items" (PyVal.list [])
  | Except.error _ => PyVal.list []

/-- `ProjectLogic.list_assignments` (logic.py:84-92): same envelope
unwrapping and APIError-to-`[]` degradation as `list_profiles`. -/
def list_assignments (remote : Except String (List (String × PyVal))) : PyVal :=
  match remote with
  | Except.ok response => pyGetD response "items" (PyVal.list [])
  | Except.error _ => PyVal.list []

/-- `ProjectLogic.create_profile` (logic.py:53-60): returns the SDK result
unchanged on success; a raised `meraki.APIError e` is caught and becomes
`{"error": str(e)}`. -/
def create_profile (remote : Except String PyVal) : PyVal :=
  match remote with
  | Except.ok v => v
  | Except.error e => PyVal.dict [("error", PyVal.str e)]

/-- The nested profile reference `{'id': profile_id}` built by
`ProjectLogic.create_dns_record` (logic.py:76). -/
def dns_record_profile_arg (profile_id : String) : PyVal :=
  PyVal.dict [("id", PyVal.str profile_id)]

/-- `ProjectLogic.create_dns_record` (logic.py:72-82): builds the nested
profile reference and submits it; APIError becomes `{"error": str(e)}`.
`remote org hostname address profileArg` is the SDK call. -/
def create_dns_record
    (remote : String → String → String → PyVal → Except String PyVal)
    (org_id profile_id hostname address : String) : PyVal :=
  match remote org_id hostname address (dns_record_profile_arg profile_id) with
  | Except.ok v => v
  | Except.error e => PyVal.dict [("error", PyVal.str e)]

/-- The singleton assignment batch built by `ProjectLogic.assign_profile`
(logic.py:98): `[{'network': {'id': network_id}, 'profile': {'id': profile_id}}]`. -/
def assign_items (network_id profile_id : String) : PyVal :=
  PyVal.list [PyVal.dict
    [("network", PyVal.dict [("id", PyVal.str network_id)]),
     ("profile", PyVal.dict [("id", PyVal.str profile_id)])]]

/-- `ProjectLogic.assign_profile` (logic.py:94-102): submits the singleton
batch; APIError becomes `{"error": str(e)}` (no None-normalization here). -/
def assign_profile (remote : String → PyVal → Except String PyVal)
    (org_id network_id profile_id : String) : PyVal :=
  match remote org_id (assign_items network_id profile_id) with
  | Except.ok v => v
  | Except.error e => PyVal.dict [("error", PyVal.str e)]

/-- `ProjectLogic.delete_profile` (logic.py:104-112): returns
`res if res is not None else {}`; APIError becomes `{"error": str(e)}`. -/
def delete_profile (remote : Except String PyVal) : PyVal :=
  match remote with
  | Except.ok PyVal.none => PyVal.dict []
  | Except.ok v => v
  | Except.error e => PyVal.dict [("error", PyVal.str e)]

/-- `ProjectLogic.delete_dns_record` (logic.py:114-122): same shape as
`delete_profile`. -/
def delete_dns_record (remote : Except String PyVal) : PyVal :=
  match remote with
  | Except.ok PyVal.none => PyVal.dict []
  | Except.ok v => v
  | Except.error e => PyVal.dict [("error", PyVal.str e)]

/-- The singleton removal batch built by `ProjectLogic.remove_assignment`
(logic.py:128): `[{'assignmentId': assignment_id}]`. -/
def remove_items (assignment_id : String) : PyVal :=
  PyVal.list [PyVal.dict [("assignmentId", PyVal.str assignment_id)]]

/-- `ProjectLogic.remove_assignment` (logic.py:124-133): submits the
singleton batch, normalizes a `None` result to `{}`; APIError becomes
`{"error": str(e)}`. -/
def remove_assignment (remote : String → PyVal → Except String PyVal)
    (org_id assignment_id : String) : PyVal :=
  match remote org_id (remove_items assignment_id) with
  | Except.ok PyVal.none => PyVal.dict []
  | Except.ok v => v
  | Except.error e => PyVal.dict [("error", PyVal.str e)]

/-- Body of `ProjectLogic.get_organizations` (logic.py:31-35): a bare
`return` of the SDK call, with NO try/except — a raised `meraki.APIError`
(`Except.error`) propagates unchanged to the caller. -/
def get_organizations_fetch (remote : Except String PyVal) : Except String PyVal :=
  remote

/-- Body of `ProjectLogic.get_networks` (logic.py:37-41): a bare `return`
of the SDK call for the given organization, with NO try/except — a raised
`meraki.APIError` propagates unchanged to the caller. -/
def get_networks_fetch (remote : String → Except String PyVal)
    (organization_id : String) : Except String PyVal :=
  remote organization_id

/-! ## Reference cache (`st.cache_data` with TTLs from `CACHE_CONFIG`) -/

/-- `CACHE_CONFIG` (logic.py:17-21): cache TTL configuration in seconds. -/
def CACHE_CONFIG : List (String × Nat) :=
  [("short", 300), ("medium", 3600), ("long", 86400)]

/-- Python `CACHE_CONFIG[name]` (keys always present where used). -/
def cacheTTL (name : String) : Nat :=
  (CACHE_CONFIG.lookup name).getD 0

/-- Modelled from the spec: the `st.cache_data(ttl=...)` memoization layer
(streamlit library code, not in src/).  State of one cached function:
per-key entry holding the cached value and the time it was stored, plus a
count of underlying remote calls issued so far. -/
structure TTLCache (κ α : Type) where
  entries : κ → Option (α × Nat)
  calls : Nat

/-- The empty cache: no entries, no remote calls issued. -/
def TTLCache.init {κ α : Type} : TTLCache κ α :=
  ⟨fun _ => Option.none, 0⟩

/-- Modelled from the spec: one call through the TTL cache at time `now`
(seconds).  A stored entry younger than `ttl` is served without a remote
call; otherwise the underlying fetch runs, its result replaces the entry,
and the remote-call count increments.  The key `k` is derived from the
call arguments (the `_self` receiver is excluded by its underscore name). -/
def cache_call {κ α : Type} [DecidableEq κ] (ttl : Nat) (fetch : κ → Nat → α)
    (k : κ) (now : Nat) (s : TTLCache κ α) : α × TTLCache κ α :=
  match s.entries k with
  | some (v, t) =>
      if now - t < ttl then (v, s)
      else (fetch k now,
            ⟨fun j => if j = k then some (fetch k now, now) else s.entries j,
             s.calls + 1⟩)
  | Option.none =>
      (fetch k now,
       ⟨fun j => if j = k then some (fetch k now, now) else s.entries j,
        s.calls + 1⟩)

/-- `ProjectLogic.get_organizations` (logic.py:31-35) seen through its
`st.cache_data(ttl=CACHE_CONFIG['long'])` decorator: the cache key has no
parameter (`_self` is excluded), so the key type is `Unit`. -/
def get_organizations {α : Type} (fetch : Unit → Nat → α) (now : Nat)
    (s : TTLCache Unit α) : α × TTLCache Unit α :=
  cache_call (cacheTTL "long") fetch () now s

/-- `ProjectLogic.get_networks` (logic.py:37-41) seen through its
`st.cache_data(ttl=CACHE_CONFIG['medium'])` decorator: the cache key is
the `organization_id` argument. -/
def get_networks {α : Type} (fetch : String → Nat → α)
    (organization_id : String) (now : Nat)
    (s : TTLCache String α) : α × TTLCache String α :=
  cache_call (cacheTTL "medium") fetch organization_id now s

/-- A sequence of `get_networks` calls for one organization at the given
times, threaded through the cache state. -/
def run_network_calls {α : Type} (fetch : String → Nat → α)
    (organization_id : String) (times : List Nat)
    (s : TTLCache String α) : TTLCache String α :=
  times.foldl (fun st tm => (get_networks fetch organization_id tm st).2) s

/-! ## Presentation-layer helpers (`src/web.py`) -/

/-- A profile item as consumed by the web layer (fields `profileId`, `name`). -/
structure Profile where
  profileId : String
  name : String
deriving DecidableEq

/-- One step of the dict comprehension
`{p['profileId']: p['name'] for p in profiles}`: a later binding for the
same key overwrites an earlier one. -/
def prof_lookup_step (acc : String → Option String) (p : Profile) :
    String → Option String :=
  fun key => if key = p.profileId then some p.name else acc key

/-- The lookup dict `prof_lookup` built in web.py:256 and web.py:326. -/
def prof_lookup (profiles : List Profile) : String → Option String :=
  profiles.foldl prof_lookup_step (fun _ => Option.none)

/-- `pid = r.get('profile', {}).get('id', 'N/A')` (web.py:275): extracts
the referenced profile id from a record value, defaulting to `"N/A"` when
the `profile` field or its `id` field is absent. -/
def record_profile_id (r : PyVal) : String :=
  match r with
  | PyVal.dict fs =>
      match pyLookup fs "profile" with
      | some (PyVal.dict pfs) =>
          match pyLookup pfs "id" with
          | some (PyVal.str i) => i
          | _ => "N/A"
      | _ => "N/A"
  | _ => "N/A"

/-- `pname = prof_lookup.get(pid, "Unknown")` (web.py:276): resolve a
record's profile reference to a display name, `"Unknown"` on a dangling
reference. -/
def resolve_profile_name (profiles : List Profile) (r : PyVal) : String :=
  (prof_lookup profiles (record_profile_id r)).getD "Unknown"

/-- The delete-handler success test `not res or "error" not in res`
(web.py:223, web.py:281, web.py:358). -/
def delete_success_cond (res : PyVal) : Bool :=
  !pyTruthy res || !hasKey res "error"

/-- The create-handler success test `res and "error" not in res`
(web.py:240, web.py:304, web.py:380). -/
def create_success_cond (res : PyVal) : Bool :=
  pyTruthy res && !hasKey res "error"

/-- The failure-toast message source `res.get('error', 'Unknown')`
(web.py:245, web.py:310, web.py:386). -/
def create_error_toast (fields : List (String × PyVal)) : PyVal :=
  pyGetD fields "error" (PyVal.str "Unknown")

/-! ## Helper lemmas -/

theorem cache_call_miss {κ α : Type} [DecidableEq κ] (ttl : Nat)
    (fetch : κ → Nat → α) (k : κ) (now : Nat) (s : TTLCache κ α)
    (h : s.entries k = Option.none) :
    cache_call ttl fetch k now s =
      (fetch k now,
       ⟨fun j => if j = k then some (fetch k now, now) else s.entries j,
        s.calls + 1⟩) := by
  unfold cache_call
  rw [h]

theorem cache_call_hit {κ α : Type} [DecidableEq κ] (ttl : Nat)
    (fetch : κ → Nat → α) (k : κ) (now : Nat) (s : TTLCache κ α)
    (v : α) (t : Nat) (h : s.entries k = some (v, t)) (hfresh : now - t < ttl) :
    cache_call ttl fetch k now s = (v, s) := by
  unfold cache_call
  rw [h]
  simp [hfresh]

theorem cache_call_expired {κ α : Type} [DecidableEq κ] (ttl : Nat)
    (fetch : κ → Nat → α) (k : κ) (now : Nat) (s : TTLCache κ α)
    (v : α) (t : Nat) (h : s.entries k = some (v, t)) (hstale : ¬ now - t < ttl) :
    cache_call ttl fetch k now s =
      (fetch k now,
       ⟨fun j => if j = k then some (fetch k now, now) else s.entries j,
        s.calls + 1⟩) := by
  unfold cache_call
  rw [h]
  simp [hstale]

theorem cache_call_entries_other {κ α : Type} [DecidableEq κ] (ttl : Nat)
    (fetch : κ → Nat → α) (k : κ) (now : Nat) (s : TTLCache κ α)
    (j : κ) (hj : j ≠ k) :
    ((cache_call ttl fetch k now s).2).entries j = s.entries j := by
  unfold cache_call
  cases h : s.entries k with
  | none => simp [hj]
  | some vt =>
      obtain ⟨v, t⟩ := vt
      by_cases hf : now - t < ttl <;> simp [hf, hj]

theorem cache_call_fst_congr {κ α : Type} [DecidableEq κ] (ttl : Nat)
    (fetch : κ → Nat → α) (k : κ) (now : Nat) (s s2 : TTLCache κ α)
    (h : s.entries k = s2.entries k) :
    (cache_call ttl fetch k now s).1 = (cache_call ttl fetch k now s2).1 := by
  unfold cache_call
  rw [h]
  cases h2 : s2.entries k with
  | none => rfl
  | some vt =>
      obtain ⟨v, t⟩ := vt
      by_cases hf : now - t < ttl <;> simp [hf]

theorem run_network_calls_entries_other {α : Type} (fetch : String → Nat → α)
    (org2 : String) (ts : List Nat) (s : TTLCache String α)
    (org1 : String) (h : org1 ≠ org2) :
    (run_network_calls fetch org2 ts s).entries org1 = s.entries org1 := by
  induction ts generalizing s with
  | nil => rfl
  | cons t ts ih =>
      show (run_network_calls fetch org2 ts
              ((get_networks fetch org2 t s).2)).entries org1 = s.entries org1
      rw [ih ((get_networks fetch org2 t s).2)]
      exact cache_call_entries_other _ fetch org2 t s org1 h

theorem prof_lookup_aux_no_match (ps : List Profile)
    (acc : String → Option String) (k : String)
    (h : ∀ q ∈ ps, q.profileId ≠ k) :
    ps.foldl prof_lookup_step acc k = acc k := by
  induction ps generalizing acc with
  | nil => rfl
  | cons p ps ih =>
      have hp : k ≠ p.profileId := fun hk => h p (List.mem_cons_self p ps) hk.symm
      have hrest : ∀ q ∈ ps, q.profileId ≠ k := fun q hq => h q (List.mem_cons_of_mem p hq)
      rw [List.foldl_cons, ih (prof_lookup_step acc p) hrest]
      simp [prof_lookup_step, hp]

theorem prof_lookup_aux_match (ps : List Profile) :
    ∀ (acc : String → Option String) (k : String) (p : Profile),
      p ∈ ps → p.profileId = k →
      (∀ q ∈ ps, q.profileId = k → q.name = p.name) →
      ps.foldl prof_lookup_step acc k = some p.name := by
  induction ps with
  | nil => intro acc k p hp; cases hp
  | cons q ps ih =>
      intro acc k p hp hk huniq
      rw [List.foldl_cons]
      by_cases hmatch : ∃ r ∈ ps, r.profileId = k
      · obtain ⟨r, hr, hrk⟩ := hmatch
        have hre : ∀ s ∈ ps, s.profileId = k → s.name = r.name := by
          intro s hs hsk
          rw [huniq s (List.mem_cons_of_mem q hs) hsk,
              ← huniq r (List.mem_cons_of_mem q hr) hrk]
        rw [ih (prof_lookup_step acc q) k r hr hrk hre,
            huniq r (List.mem_cons_of_mem q hr) hrk]
      · push_neg at hmatch
        rw [prof_lookup_aux_no_match ps _ k hmatch]
        have hpq : p = q := by
          rcases List.mem_cons.mp hp with heq | hmem
          · exact heq
          · exact absurd hk (hmatch p hmem)
        subst hpq
        simp only [prof_lookup_step]
        rw [if_pos hk.symm]

/-! ## Claims -/

/-- C1 counterexample: `get_organizations` (here its body
`get_organizations_fetch`) does NOT catch a transport failure — at the
concrete failing input the gateway outcome is the propagated
`meraki.APIError`, not an empty collection. -/
theorem C1_counterexample_get_organizations_raises :
    get_organizations_fetch (Except.error "connection timeout") =
      Except.error "connection timeout" ∧
    get_organizations_fetch (Except.error "connection timeout") ≠
      (Except.ok (PyVal.list []) : Except String PyVal) := by
  refine ⟨rfl, ?_⟩
  intro h
  exact Except.noConfusion h

/-- C1 (amended): for every transport failure, the failure is caught
inside the gateway for the three DNS list operations (which return an
empty collection) and for every mutation operation (which returns an
`{"error": message}` value); `get_organizations` and `get_networks`
perform no catch, so there the transport failure propagates unchanged to
the caller. -/
theorem C1_gateway_failure_handling
    (m org_id network_id profile_id assignment_id hostname address : String) :
    list_profiles (Except.error m) = PyVal.list [] ∧
    list_dns_records (Except.error m) = PyVal.list [] ∧
    list_assignments (Except.error m) = PyVal.list [] ∧
    create_profile (Except.error m) = PyVal.dict [("error", PyVal.str m)] ∧
    create_dns_record (fun _ _ _ _ => Except.error m) org_id profile_id
        hostname address = PyVal.dict [("error", PyVal.str m)] ∧
    assign_profile (fun _ _ => Except.error m) org_id network_id profile_id =
      PyVal.dict [("error", PyVal.str m)] ∧
    delete_profile (Except.error m) = PyVal.dict [("error", PyVal.str m)] ∧
    delete_dns_record (Except.error m) = PyVal.dict [("error", PyVal.str m)] ∧
    remove_assignment (fun _ _ => Except.error m) org_id assignment_id =
      PyVal.dict [("error", PyVal.str m)] ∧
    get_organizations_fetch (Except.error m) = Except.error m ∧
    get_networks_fetch (fun _ => Except.error m) org_id = Except.error m :=
  ⟨rfl, rfl, rfl, rfl, rfl, rfl, rfl, rfl, rfl, rfl, rfl⟩

/-- C2: each list operation returns exactly the `items` field of the
response envelope (in order), the empty sequence when the field is
absent, and the empty sequence when the remote call raises a transport
error. -/
theorem C2_list_envelope_unwrap :
    (∀ (env : List (String × PyVal)) (xs : List PyVal),
        pyLookup env "items" = some (PyVal.list xs) →
        list_profiles (Except.ok env) = PyVal.list xs ∧
        list_dns_records (Except.ok env) = PyVal.list xs ∧
        list_assignments (Except.ok env) = PyVal.list xs) ∧
    (∀ env : List (String × PyVal),
        pyLookup env "items" = Option.none →
        list_profiles (Except.ok env) = PyVal.list [] ∧
        list_dns_records (Except.ok env) = PyVal.list [] ∧
        list_assignments (Except.ok env) = PyVal.list []) ∧
    (∀ m : String,
        list_profiles (Except.error m) = PyVal.list [] ∧
        list_dns_records (Except.error m) = PyVal.list [] ∧
        list_assignments (Except.error m) = PyVal.list []) := by
  refine ⟨?_, ?_, ?_⟩
  · intro env xs h
    refine ⟨?_, ?_, ?_⟩ <;>
      simp [list_profiles, list_dns_records, list_assignments, pyGetD, h]
  · intro env h
    refine ⟨?_, ?_, ?_⟩ <;>
      simp [list_profiles, list_dns_records, list_assignments, pyGetD, h]
  · intro m
    exact ⟨rfl, rfl, rfl⟩

/-- C2 witness: concrete envelope `{items: [a, b]}`, an envelope without
`items`, and a failing remote. -/
theorem C2_list_envelope_unwrap_witness :
    list_profiles (Except.ok
        [("items", PyVal.list [PyVal.str "a", PyVal.str "b"])]) =
      PyVal.list [PyVal.str "a", PyVal.str "b"] ∧
    list_dns_records (Except.ok [("other", PyVal.str "x")]) = PyVal.list [] ∧
    list_assignments (Except.error "503 service unavailable") = PyVal.list [] :=
  ⟨(C2_list_envelope_unwrap.1
      [("items", PyVal.list [PyVal.str "a", PyVal.str "b"])]
      [PyVal.str "a", PyVal.str "b"] rfl).1,
   (C2_list_envelope_unwrap.2.1 [("other", PyVal.str "x")] (by simp [pyLookup])).2.1,
   (C2_list_envelope_unwrap.2.2 "503 service unavailable").2.2⟩

/-- C3: `create_profile` returns the remote's object unchanged on
success; on a transport failure with (non-empty) message `m` it returns
`{"error": m}`, i.e. an object whose `error` field holds the non-empty
message. -/
theorem C3_create_profile_contract (v : PyVal) (m : String) :
    create_profile (Except.ok v) = v ∧
    (m ≠ "" →
      create_profile (Except.error m) = PyVal.dict [("error", PyVal.str m)] ∧
      hasKey (create_profile (Except.error m)) "error" = true ∧
      pyLookup [("error", PyVal.str m)] "error" = some (PyVal.str m) ∧
      m ≠ "") := by
  refine ⟨rfl, fun hm => ⟨rfl, rfl, rfl, hm⟩⟩

/-- C3 witness: a concrete success object and a concrete non-empty
failure message. -/
theorem C3_create_profile_contract_witness :
    create_profile (Except.ok (PyVal.dict [("profileId", PyVal.str "p7"),
        ("name", PyVal.str "Eng")])) =
      PyVal.dict [("profileId", PyVal.str "p7"), ("name", PyVal.str "Eng")] ∧
    create_profile (Except.error "404 profile not found") =
      PyVal.dict [("error", PyVal.str "404 profile not found")] ∧
    hasKey (create_profile (Except.error "404 profile not found")) "error" = true :=
  ⟨(C3_create_profile_contract
      (PyVal.dict [("profileId", PyVal.str "p7"), ("name", PyVal.str "Eng")])
      "404 profile not found").1,
   ((C3_create_profile_contract PyVal.none "404 profile not found").2
      (by simp)).1,
   ((C3_create_profile_contract PyVal.none "404 profile not found").2
      (by simp)).2.1⟩

/-- C4: each delete-style operation yields the empty mapping `{}` when
the remote returns nothing (`None`), never a null value, and yields
`{"error": message}` on a transport failure; the two outcomes are
distinguished by presence of the `error` field. -/
theorem C4_delete_contract (m org_id assignment_id : String)
    (remote : String → PyVal → Except String PyVal) :
    (delete_profile (Except.ok PyVal.none) = PyVal.dict [] ∧
     delete_dns_record (Except.ok PyVal.none) = PyVal.dict [] ∧
     (remote org_id (remove_items assignment_id) = Except.ok PyVal.none →
       remove_assignment remote org_id assignment_id = PyVal.dict [])) ∧
    (delete_profile (Except.error m) = PyVal.dict [("error", PyVal.str m)] ∧
     delete_dns_record (Except.error m) = PyVal.dict [("error", PyVal.str m)] ∧
     (remote org_id (remove_items assignment_id) = Except.error m →
       remove_assignment remote org_id assignment_id =
         PyVal.dict [("error", PyVal.str m)])) ∧
    (PyVal.dict [] ≠ PyVal.none ∧
     hasKey (PyVal.dict []) "error" = false ∧
     hasKey (PyVal.dict [("error", PyVal.str m)]) "error" = true) := by
  refine ⟨⟨rfl, rfl, fun h => ?_⟩, ⟨rfl, rfl, fun h => ?_⟩,
          fun h => PyVal.noConfusion h, rfl, rfl⟩
  · show (match remote org_id (remove_items assignment_id) with
          | Except.ok PyVal.none => PyVal.dict []
          | Except.ok v => v
          | Except.error e => PyVal.dict [("error", PyVal.str e)]) = PyVal.dict []
    rw [h]
  · show (match remote org_id (remove_items assignment_id) with
          | Except.ok PyVal.none => PyVal.dict []
          | Except.ok v => v
          | Except.error e => PyVal.dict [("error", PyVal.str e)]) =
        PyVal.dict [("error", PyVal.str m)]
    rw [h]

/-- C4 witness: concrete remotes returning `None` and failing with a
concrete message. -/
theorem C4_delete_contract_witness :
    remove_assignment (fun _ _ => Except.ok PyVal.none) "o1" "a1" =
      PyVal.dict [] ∧
    remove_assignment (fun _ _ => Except.error "404 not found") "o1" "a1" =
      PyVal.dict [("error", PyVal.str "404 not found")] ∧
    hasKey (PyVal.dict []) "error" = false ∧
    hasKey (PyVal.dict [("error", PyVal.str "404 not found")]) "error" = true :=
  ⟨(C4_delete_contract "404 not found" "o1" "a1"
      (fun _ _ => Except.ok PyVal.none)).1.2.2 rfl,
   (C4_delete_contract "404 not found" "o1" "a1"
      (fun _ _ => Except.error "404 not found")).2.1.2.2 rfl,
   (C4_delete_contract "404 not found" "o1" "a1"
      (fun _ _ => Except.ok PyVal.none)).2.2.2.1,
   (C4_delete_contract "404 not found" "o1" "a1"
      (fun _ _ => Except.ok PyVal.none)).2.2.2.2⟩

/-- C5: `assign_profile` submits exactly the single-element batch
`[{network: {id}, profile: {id}}]`, `remove_assignment` submits exactly
`[{assignmentId}]`, and `create_dns_record` passes exactly the nested
reference `{id: profile_id}`; each batch has exactly one element, and
each operation's result depends on the remote only through its response
to that exact payload. -/
theorem C5_request_shapes
    (org_id network_id profile_id assignment_id hostname address : String)
    (remA remA2 remR remR2 : String → PyVal → Except String PyVal)
    (remC remC2 : String → String → String → PyVal → Except String PyVal) :
    assign_items network_id profile_id =
      PyVal.list [PyVal.dict
        [("network", PyVal.dict [("id", PyVal.str network_id)]),
         ("profile", PyVal.dict [("id", PyVal.str profile_id)])]] ∧
    pyLen (assign_items network_id profile_id) = 1 ∧
    remove_items assignment_id =
      PyVal.list [PyVal.dict [("assignmentId", PyVal.str assignment_id)]] ∧
    pyLen (remove_items assignment_id) = 1 ∧
    dns_record_profile_arg profile_id = PyVal.dict [("id", PyVal.str profile_id)] ∧
    (remA org_id (assign_items network_id profile_id) =
        remA2 org_id (assign_items network_id profile_id) →
      assign_profile remA org_id network_id profile_id =
        assign_profile remA2 org_id network_id profile_id) ∧
    (remR org_id (remove_items assignment_id) =
        remR2 org_id (remove_items assignment_id) →
      remove_assignment remR org_id assignment_id =
        remove_assignment remR2 org_id assignment_id) ∧
    (remC org_id hostname address (dns_record_profile_arg profile_id) =
        remC2 org_id hostname address (dns_record_profile_arg profile_id) →
      create_dns_record remC org_id profile_id hostname address =
        create_dns_record remC2 org_id profile_id hostname address) := by
  refine ⟨rfl, rfl, rfl, rfl, rfl, fun h => ?_, fun h => ?_, fun h => ?_⟩
  · unfold assign_profile
    rw [h]
  · unfold remove_assignment
    rw [h]
  · unfold create_dns_record
    rw [h]

/-- C5 witness: concrete ids; two remotes agreeing on the singleton
payload give identical results. -/
theorem C5_request_shapes_witness :
    pyLen (assign_items "n1" "p1") = 1 ∧
    pyLen (remove_items "a1") = 1 ∧
    dns_record_profile_arg "p1" = PyVal.dict [("id", PyVal.str "p1")] ∧
    assign_profile (fun _ _ => Except.ok PyVal.none) "o1" "n1" "p1" =
      assign_profile (fun _ _ => Except.ok PyVal.none) "o1" "n1" "p1" :=
  ⟨(C5_request_shapes "o1" "n1" "p1" "a1" "h" "addr"
      (fun _ _ => Except.ok PyVal.none) (fun _ _ => Except.ok PyVal.none)
      (fun _ _ => Except.ok PyVal.none) (fun _ _ => Except.ok PyVal.none)
      (fun _ _ _ _ => Except.ok PyVal.none)
      (fun _ _ _ _ => Except.ok PyVal.none)).2.1,
   (C5_request_shapes "o1" "n1" "p1" "a1" "h" "addr"
      (fun _ _ => Except.ok PyVal.none) (fun _ _ => Except.ok PyVal.none)
      (fun _ _ => Except.ok PyVal.none) (fun _ _ => Except.ok PyVal.none)
      (fun _ _ _ _ => Except.ok PyVal.none)
      (fun _ _ _ _ => Except.ok PyVal.none)).2.2.2.1,
   (C5_request_shapes "o1" "n1" "p1" "a1" "h" "addr"
      (fun _ _ => Except.ok PyVal.none) (fun _ _ => Except.ok PyVal.none)
      (fun _ _ => Except.ok PyVal.none) (fun _ _ => Except.ok PyVal.none)
      (fun _ _ _ _ => Except.ok PyVal.none)
      (fun _ _ _ _ => Except.ok PyVal.none)).2.2.2.2.1,
   (C5_request_shapes "o1" "n1" "p1" "a1" "h" "addr"
      (fun _ _ => Except.ok PyVal.none) (fun _ _ => Except.ok PyVal.none)
      (fun _ _ => Except.ok PyVal.none) (fun _ _ => Except.ok PyVal.none)
      (fun _ _ _ _ => Except.ok PyVal.none)
      (fun _ _ _ _ => Except.ok PyVal.none)).2.2.2.2.2.1 rfl⟩

/-- C6: starting from an empty cache, the first `get_organizations` call
issues one remote call; a second call less than the organizations TTL
later issues no further remote call and returns the same value; a second
call more than the TTL later issues a second remote call.  The networks
TTL (`medium`, 1h) is strictly smaller than the organizations TTL
(`long`, 24h). -/
theorem C6_organizations_cache_ttl {α : Type} (fetch : Unit → Nat → α)
    (t1 t2 : Nat) (_h12 : t1 ≤ t2) :
    ((get_organizations fetch t1 TTLCache.init).2.calls = 1 ∧
     (t2 - t1 < cacheTTL "long" →
       (get_organizations fetch t2
           (get_organizations fetch t1 TTLCache.init).2).2.calls = 1 ∧
       (get_organizations fetch t2
           (get_organizations fetch t1 TTLCache.init).2).1 =
         (get_organizations fetch t1 TTLCache.init).1) ∧
     (cacheTTL "long" < t2 - t1 →
       (get_organizations fetch t2
           (get_organizations fetch t1 TTLCache.init).2).2.calls = 2)) ∧
    cacheTTL "medium" < cacheTTL "long" := by
  have h1 : get_organizations fetch t1 TTLCache.init =
      (fetch () t1,
       ⟨fun j => if j = () then some (fetch () t1, t1) else Option.none, 1⟩) := by
    unfold get_organizations
    exact cache_call_miss _ fetch () t1 TTLCache.init rfl
  have hent : (get_organizations fetch t1 TTLCache.init).2.entries () =
      some (fetch () t1, t1) := by
    rw [h1]
    simp
  refine ⟨⟨by rw [h1], fun hfresh => ?_, fun hstale => ?_⟩, by decide⟩
  · have h2 : get_organizations fetch t2
        (get_organizations fetch t1 TTLCache.init).2 =
        (fetch () t1, (get_organizations fetch t1 TTLCache.init).2) := by
      unfold get_organizations
      exact cache_call_hit _ fetch () t2 _ (fetch () t1) t1 hent hfresh
    rw [h2, h1]
    exact ⟨rfl, rfl⟩
  · have h2 := cache_call_expired (cacheTTL "long") fetch () t2
        (get_organizations fetch t1 TTLCache.init).2 (fetch () t1) t1 hent
        (by omega)
    show (cache_call (cacheTTL "long") fetch () t2
        (get_organizations fetch t1 TTLCache.init).2).2.calls = 2
    rw [h2, h1]

/-- C6 witness: concrete times 100 and 200 (within the 24h TTL) give one
remote call and equal values; times 0 and 100000 (beyond the TTL) give
two remote calls. -/
theorem C6_organizations_cache_ttl_witness :
    (get_organizations (fun _ n => n) 100 TTLCache.init).2.calls = 1 ∧
    (get_organizations (fun _ n => n) 200
        (get_organizations (fun _ n => n) 100 TTLCache.init).2).2.calls = 1 ∧
    (get_organizations (fun _ n => n) 200
        (get_organizations (fun _ n => n) 100 TTLCache.init).2).1 =
      (get_organizations (fun _ n => n) 100 TTLCache.init).1 ∧
    (get_organizations (fun _ n => n) 100000
        (get_organizations (fun _ n => n) 0 TTLCache.init).2).2.calls = 2 ∧
    cacheTTL "medium" < cacheTTL "long" :=
  ⟨(C6_organizations_cache_ttl (fun _ n => n) 100 200 (by decide)).1.1,
   ((C6_organizations_cache_ttl (fun _ n => n) 100 200 (by decide)).1.2.1
      (by decide)).1,
   ((C6_organizations_cache_ttl (fun _ n => n) 100 200 (by decide)).1.2.1
      (by decide)).2,
   (C6_organizations_cache_ttl (fun _ n => n) 0 100000 (by decide)).1.2.2
      (by decide),
   (C6_organizations_cache_ttl (fun _ n => n) 0 100000 (by decide)).2⟩

/-- C7: the networks cache key includes the organization id, so the value
returned by `get_networks` for one organization is unaffected by any
sequence of interleaved `get_networks` calls for a different
organization. -/
theorem C7_networks_cache_per_org {α : Type} (fetch : String → Nat → α)
    (org1 org2 : String) (h : org1 ≠ org2) (ts : List Nat)
    (s : TTLCache String α) (t : Nat) :
    (get_networks fetch org1 t (run_network_calls fetch org2 ts s)).1 =
      (get_networks fetch org1 t s).1 := by
  unfold get_networks
  exact cache_call_fst_congr _ fetch org1 t _ s
    (run_network_calls_entries_other fetch org2 ts s org1 h)

/-- C7 witness: concrete orgs "org1" and "org2", two interleaved calls
for "org2". -/
theorem C7_networks_cache_per_org_witness :
    (get_networks (fun _ n => n) "org1" 5
        (run_network_calls (fun _ n => n) "org2" [0, 10] TTLCache.init)).1 =
      (get_networks (fun _ n => n) "org1" 5 TTLCache.init).1 :=
  C7_networks_cache_per_org (fun _ n => n) "org1" "org2" (by decide)
    [0, 10] TTLCache.init 5

/-- C8: the render-time lookup resolves a record's profile reference to
the matching profile's name, and resolves to the literal `"Unknown"`
(without failing — the function is total) when no profile in the fetched
collection matches. -/
theorem C8_profile_name_resolution (profiles : List Profile) (r : PyVal) :
    ((∀ q ∈ profiles, q.profileId ≠ record_profile_id r) →
      resolve_profile_name profiles r = "Unknown") ∧
    (∀ p, p ∈ profiles → p.profileId = record_profile_id r →
      (∀ q ∈ profiles, q.profileId = record_profile_id r → q.name = p.name) →
      resolve_profile_name profiles r = p.name) := by
  constructor
  · intro h
    unfold resolve_profile_name prof_lookup
    rw [prof_lookup_aux_no_match profiles _ _ h]
    rfl
  · intro p hp hk huniq
    unfold resolve_profile_name prof_lookup
    rw [prof_lookup_aux_match profiles _ _ p hp hk huniq]
    rfl

/-- C8 witness: a record referencing `"p1"` with profiles
`[{profileId: "p1", name: "Eng"}]` resolves to `"Eng"`; a record
referencing `"p9"` resolves to `"Unknown"`. -/
theorem C8_profile_name_resolution_witness :
    resolve_profile_name [⟨"p1", "Eng"⟩]
        (PyVal.dict [("profile", PyVal.dict [("id", PyVal.str "p1")])]) = "Eng" ∧
    resolve_profile_name [⟨"p1", "Eng"⟩]
        (PyVal.dict [("profile", PyVal.dict [("id", PyVal.str "p9")])]) = "Unknown" :=
  ⟨(C8_profile_name_resolution [⟨"p1", "Eng"⟩]
      (PyVal.dict [("profile", PyVal.dict [("id", PyVal.str "p1")])])).2
      ⟨"p1", "Eng"⟩ (by simp) rfl
      (by intro q hq _; rw [List.mem_singleton] at hq; rw [hq]),
   (C8_profile_name_resolution [⟨"p1", "Eng"⟩]
      (PyVal.dict [("profile", PyVal.dict [("id", PyVal.str "p9")])])).1
      (by intro q hq; rw [List.mem_singleton] at hq; subst hq; decide)⟩

/-- C9: `delete_profile` applied twice to an already-deleted id is
idempotent in outcome kind: if the remote reports a transport error both
times the result carries an `error` field both times; if the remote
benignly returns nothing both times the result is the empty success
marker both times.  The embedding is a total function, so no call can
raise. -/
theorem C9_delete_profile_idempotent (r1 r2 : Except String PyVal)
    (m1 m2 : String) :
    ((r1 = Except.error m1 ∧ r2 = Except.error m2) →
      hasKey (delete_profile r1) "error" = true ∧
      hasKey (delete_profile r2) "error" = true) ∧
    ((r1 = Except.ok PyVal.none ∧ r2 = Except.ok PyVal.none) →
      delete_profile r1 = PyVal.dict [] ∧
      delete_profile r2 = PyVal.dict []) := by
  constructor
  · rintro ⟨h1, h2⟩
    subst h1; subst h2
    exact ⟨rfl, rfl⟩
  · rintro ⟨h1, h2⟩
    subst h1; subst h2
    exact ⟨rfl, rfl⟩

/-- C9 witness: two consecutive 404 responses, and two consecutive
empty-success responses. -/
theorem C9_delete_profile_idempotent_witness :
    (hasKey (delete_profile (Except.error "404 profile not found")) "error" = true ∧
     hasKey (delete_profile (Except.error "404 profile not found")) "error" = true) ∧
    (delete_profile (Except.ok PyVal.none) = PyVal.dict [] ∧
     delete_profile (Except.ok PyVal.none) = PyVal.dict []) :=
  ⟨(C9_delete_profile_idempotent (Except.error "404 profile not found")
      (Except.error "404 profile not found") "404 profile not found"
      "404 profile not found").1 ⟨rfl, rfl⟩,
   (C9_delete_profile_idempotent (Except.ok PyVal.none) (Except.ok PyVal.none)
      "404 profile not found" "404 profile not found").2 ⟨rfl, rfl⟩⟩

/-- C10: the presentation layer's success tests are asymmetric — every
falsy result passes the delete-handler test (`not res or "error" not in
res`) but fails the create-handler test (`res and "error" not in res`);
in particular the empty-mapping success marker from a create is reported
as an error, with message source `res.get('error', 'Unknown')` yielding
`"Unknown"`. -/
theorem C10_ui_success_test_asymmetry (res : PyVal)
    (h : pyTruthy res = false) :
    delete_success_cond res = true ∧
    create_success_cond res = false ∧
    delete_success_cond (PyVal.dict []) = true ∧
    create_success_cond (PyVal.dict []) = false ∧
    hasKey (PyVal.dict []) "error" = false ∧
    create_error_toast [] = PyVal.str "Unknown" := by
  refine ⟨?_, ?_, rfl, rfl, rfl, rfl⟩
  · simp [delete_success_cond, h]
  · simp [create_success_cond, h]

/-- C10 witness: the empty mapping (the delete success marker) is falsy,
passes the delete test and fails the create test. -/
theorem C10_ui_success_test_asymmetry_witness :
    delete_success_cond (PyVal.dict []) = true ∧
    create_success_cond (PyVal.dict []) = false ∧
    create_error_toast [] = PyVal.str "Unknown" :=
  ⟨(C10_ui_success_test_asymmetry (PyVal.dict []) rfl).1,
   (C10_ui_success_test_asymmetry (PyVal.dict []) rfl).2.1,
   (C10_ui_success_test_asymmetry (PyVal.dict []) rfl).2.2.2.2.2⟩
